import Mathlib

/-!
Verification of the `breeze` Python package: a thin wrapper that locates an
external `breeze` executable and invokes it as a subprocess.

The operating-system facts a run depends on (platform, filesystem checks,
subprocess launches) are collected into an explicit environment record `Env`;
the functions of `breeze/breeze.py` are embedded as pure functions over that
environment, returning `Except BreezeError` where the Python code raises
`BreezeError`.  The CLI of `breeze/cli.py` is embedded over an operation
interface that, in addition to the `BreezeError` outcome, can report a
keyboard interrupt, since the Python handler distinguishes that case.
-/

namespace Breeze

/-- The single exception type of the package (`BreezeError`), carrying its
message string. -/
structure BreezeError where
  msg : String
deriving DecidableEq, Repr

/-- The fields of a completed `subprocess.run(..., capture_output=True,
text=True)`: return code (an `Int`, as Python reports negative values for
signal deaths) and the captured output streams. -/
structure RunResult where
  returncode : Int
  stdout : String
  stderr : String
deriving DecidableEq, Repr

/-- Outcome of attempting to launch a subprocess: either the process ran to
completion, or the launch itself failed with `FileNotFoundError` (whose
`str()` rendering is carried as `msg`). -/
inductive LaunchOutcome where
  | completed (r : RunResult)
  | fileNotFound (msg : String)
deriving DecidableEq, Repr

/-- The ambient operating-system environment a call runs in:
`platformIsWin32` is `sys.platform == "win32"`; `packageDir` is the string of
`Path(__file__).parent.parent.parent`; `pathExists`/`pathIsFile` are
`Path.exists`/`Path.is_file`; `runProc cmd input` is
`subprocess.run(cmd, capture_output=True, text=True, input=input)`;
`cpeStr cmd rc` is Python's `str(subprocess.CalledProcessError(rc, cmd))`. -/
structure Env where
  platformIsWin32 : Bool
  packageDir : String
  pathExists : String → Bool
  pathIsFile : String → Bool
  runProc : List String → Option String → LaunchOutcome
  cpeStr : List String → Int → String

/-- Python `str.strip()` whitespace test (space, tab, newline, vertical tab,
form feed, carriage return; non-ASCII whitespace is out of scope here). -/
def pyIsSpace (c : Char) : Bool :=
  c = ' ' || c = '\t' || c = '\n' || c = '\x0b' || c = '\x0c' || c = '\r'

/-- Python `s.strip()`: remove leading and trailing whitespace. -/
def pyStrip (s : String) : String :=
  ⟨((s.data.dropWhile pyIsSpace).reverse.dropWhile pyIsSpace).reverse⟩

/-- Python `s.split('\n')[0]`: the characters before the first `'\n'` (the
whole string when none occurs; the split of any string is nonempty, so the
indexing is total). -/
def pyFirstLine (s : String) : String :=
  ⟨s.data.takeWhile (fun c => !(c = '\n'))⟩

/-- The message of the `BreezeError` raised when neither lookup finds the
binary (verbatim from `_find_breeze_binary`). -/
def notFoundMsg : String :=
  "Breeze binary not found. Please ensure Go is installed and run: go build ./cmd/breeze"

/-- The platform-appropriate executable name (`binary_name` in
`_find_breeze_binary`). -/
def binaryName (env : Env) : String :=
  if env.platformIsWin32 then "breeze.exe" else "breeze"

/-- `str(package_dir / binary_name)`: the fixed candidate path relative to the
package root. -/
def binaryPath (env : Env) : String :=
  env.packageDir ++ "/" ++ binaryName env

/-- The OS search-path lookup command:
`["which" if sys.platform != "win32" else "where", "breeze"]`. -/
def whichCmd (env : Env) : List String :=
  [if env.platformIsWin32 then "where" else "which", "breeze"]

/-- `_find_breeze_binary`: check the fixed package-relative path first; else
run `which`/`where breeze` (with `check=True`, so a nonzero exit raises
`CalledProcessError`, which — like `FileNotFoundError` — is caught and falls
through); else raise the not-found `BreezeError`.  On a zero-exit lookup the
result is `result.stdout.strip().split('\n')[0]`. -/
def _find_breeze_binary (env : Env) : Except BreezeError String :=
  if env.pathExists (binaryPath env) && env.pathIsFile (binaryPath env) then
    .ok (binaryPath env)
  else
    match env.runProc (whichCmd env) none with
    | .completed r =>
        if r.returncode = 0 then .ok (pyFirstLine (pyStrip r.stdout))
        else .error ⟨notFoundMsg⟩
    | .fileNotFound _ => .error ⟨notFoundMsg⟩

/-- The OS search-path lookup fails: `which`/`where` either exits nonzero
(`CalledProcessError` under `check=True`) or cannot itself be launched
(`FileNotFoundError`). -/
def whichFails (env : Env) : Prop :=
  match env.runProc (whichCmd env) none with
  | .completed r => r.returncode ≠ 0
  | .fileNotFound _ => True

/-- `_run_breeze_command`: resolve the binary (a `BreezeError` from the
resolver matches neither `except` clause and propagates unchanged), run it
with the given arguments and optional stdin text; on exit 0 return the
stripped stdout; on nonzero exit (`check=True` raises `CalledProcessError e`)
raise `BreezeError("Breeze command failed: " + (e.stderr if e.stderr else
str(e)))`; on `FileNotFoundError e` raise
`BreezeError("Failed to execute Breeze: " + str(e))`. -/
def _run_breeze_command (env : Env) (args : List String)
    (input_text : Option String := none) : Except BreezeError String :=
  match _find_breeze_binary env with
  | .error e => .error e
  | .ok binary =>
      match env.runProc (binary :: args) input_text with
      | .completed r =>
          if r.returncode = 0 then .ok (pyStrip r.stdout)
          else
            let error_msg :=
              if r.stderr = "" then env.cpeStr (binary :: args) r.returncode else r.stderr
            .error ⟨"Breeze command failed: " ++ error_msg⟩
      | .fileNotFound m => .error ⟨"Failed to execute Breeze: " ++ m⟩

/-- `ai`: the optional parameters are accepted but not forwarded; the
argument list passed on is exactly `[prompt]`. -/
def ai (env : Env) (prompt : String) (model : Option String := none)
    (temperature : Option Float := none) (concise : Bool := false)
    (docs : Option (List String) := none) : Except BreezeError String :=
  _run_breeze_command env [prompt]

/-- `chat`: one invocation with arguments `["chat", prompt]`. -/
def chat (env : Env) (prompt : String) : Except BreezeError String :=
  _run_breeze_command env ["chat", prompt]

/-- `code`: one invocation with arguments `["code", prompt]`. -/
def code (env : Env) (prompt : String) : Except BreezeError String :=
  _run_breeze_command env ["code", prompt]

/-- `clear`: one invocation with arguments `["clear"]`, discarding the
returned string (Python returns `None`). -/
def clear (env : Env) : Except BreezeError Unit :=
  (_run_breeze_command env ["clear"]).map fun _ => ()

/-- `stream`: the body is `return ai(prompt)`; the callback is never invoked.
The embedding instruments the run with the number of times the supplied
callback was called — the second component — which the body leaves at 0. -/
def stream (env : Env) (prompt : String)
    (callback : Option (String → Unit) := none) :
    Except BreezeError String × Nat :=
  (ai env prompt, 0)

/-- `batch`: the list comprehension `[ai(prompt) for prompt in prompts]`,
evaluated left to right; the first raised `BreezeError` aborts the whole
call. -/
def batch (env : Env) : List String → Except BreezeError (List String)
  | [] => .ok []
  | p :: ps =>
      match ai env p with
      | .error e => .error e
      | .ok r =>
          match batch env ps with
          | .error e => .error e
          | .ok rs => .ok (r :: rs)

end Breeze

namespace Cli

/-- Outcome of calling one of the package operations from the CLI: a normal
return, a raised `BreezeError`, or a `KeyboardInterrupt` delivered while the
operation was running (the CLI's `try` block handles exactly these two
exception kinds). -/
inductive OpResult (α : Type) where
  | ok (a : α)
  | err (e : Breeze.BreezeError)
  | interrupt
deriving DecidableEq, Repr

/-- The operations `cli.main` dispatches to (`breeze.chat`, `breeze.code`,
`breeze.clear`, `breeze.ai`), each possibly raising or being interrupted. -/
structure CliEnv where
  chat : String → OpResult String
  code : String → OpResult String
  clear : OpResult Unit
  ai : String → OpResult String

/-- A `CliEnv` for a run in which no keyboard interrupt arrives: each
operation is the corresponding `Breeze` function over `env`. -/
def CliEnv.ofEnv (env : Breeze.Env) : CliEnv where
  chat p := match Breeze.chat env p with
    | .ok r => .ok r
    | .error e => .err e
  code p := match Breeze.code env p with
    | .ok r => .ok r
    | .error e => .err e
  clear := match Breeze.clear env with
    | .ok u => .ok u
    | .error e => .err e
  ai p := match Breeze.ai env p with
    | .ok r => .ok r
    | .error e => .err e

/-- The text `parser.print_help()` writes (argparse-generated; its exact
content is immaterial to the properties below). -/
def helpText : String :=
  "usage: breeze [-h] [--version] [command] [prompt ...]"

/-- The prompt built on the direct-prompt branch:
`command + " " + " ".join(args.prompt)` when further tokens exist, else just
the command token. -/
def directPrompt (c : String) (promptArgs : List String) : String :=
  if promptArgs.isEmpty then c else c ++ " " ++ String.intercalate " " promptArgs

/-- What the `try` block of `cli.main` produces before exception handling:
the lines printed to stdout together with the process exit status (a plain
fall-off-the-end return exits 0; `sys.exit(n)` is uncaught by the two
`except` clauses). A raised `BreezeError` or `KeyboardInterrupt` escapes to
the handlers; no stdout printing precedes the operation call on any branch. -/
def tryBody (env : CliEnv) (command : Option String) (promptArgs : List String) :
    OpResult (List String × Nat) :=
  match command with
  | none => .ok ([helpText], 0)
  | some c =>
      if c = "chat" then
        if promptArgs.isEmpty then .ok (["Error: chat requires a prompt"], 1)
        else
          match env.chat (String.intercalate " " promptArgs) with
          | .ok r => .ok ([r], 0)
          | .err e => .err e
          | .interrupt => .interrupt
      else if c = "code" then
        if promptArgs.isEmpty then .ok (["Error: code requires a prompt"], 1)
        else
          match env.code (String.intercalate " " promptArgs) with
          | .ok r => .ok ([r], 0)
          | .err e => .err e
          | .interrupt => .interrupt
      else if c = "clear" then
        match env.clear with
        | .ok _ => .ok (["Conversation cleared."], 0)
        | .err e => .err e
        | .interrupt => .interrupt
      else
        match env.ai (directPrompt c promptArgs) with
        | .ok r => .ok ([r], 0)
        | .err e => .err e
        | .interrupt => .interrupt

/-- The observable result of one CLI run: lines printed to stdout, lines
printed to stderr, and the process exit status. -/
structure CliOutput where
  stdoutLines : List String
  stderrLines : List String
  exitCode : Nat
deriving DecidableEq, Repr

/-- `cli.main` after argument parsing: run the `try` body; on `BreezeError e`
print `"Error: " + str(e)` to stderr and exit 1; on `KeyboardInterrupt`
print `"\nInterrupted"` to stderr and exit 130. -/
def main (env : CliEnv) (command : Option String) (promptArgs : List String) :
    CliOutput :=
  match tryBody env command promptArgs with
  | .ok (outLines, rc) => ⟨outLines, [], rc⟩
  | .err e => ⟨[], ["Error: " ++ e.msg], 1⟩
  | .interrupt => ⟨[], ["\nInterrupted"], 130⟩

end Cli

/-! Concrete environments used to exercise the embedding on the mock
executables described by the spec's testable properties. -/

/-- A generic `str(CalledProcessError(rc, cmd))` rendering, shared by the
concrete environments below. -/
def exCpeStr (cmd : List String) (rc : Int) : String :=
  "Command " ++ toString cmd ++ " returned non-zero exit status " ++ toString rc ++ "."

/-- The package-relative binary exists; the mock executable writes `"OK\n"`
to stdout and exits 0. -/
def okEnv : Breeze.Env where
  platformIsWin32 := false
  packageDir := "/pkg"
  pathExists := fun _ => true
  pathIsFile := fun _ => true
  runProc := fun _ _ => .completed ⟨0, "OK\n", ""⟩
  cpeStr := exCpeStr

/-- The package-relative binary exists; the mock executable writes
`"bad input"` to stderr and exits 1. -/
def stderrEnv : Breeze.Env where
  platformIsWin32 := false
  packageDir := "/pkg"
  pathExists := fun _ => true
  pathIsFile := fun _ => true
  runProc := fun _ _ => .completed ⟨1, "", "bad input"⟩
  cpeStr := exCpeStr

/-- The package-relative binary exists; the mock executable echoes its sole
argument to stdout and exits 0. -/
def echoEnv : Breeze.Env where
  platformIsWin32 := false
  packageDir := "/pkg"
  pathExists := fun _ => true
  pathIsFile := fun _ => true
  runProc := fun cmdArgs _ => .completed ⟨0, cmdArgs.getD 1 "", ""⟩
  cpeStr := exCpeStr

/-- Neither the package-relative path nor the search-path lookup yields a
binary: the filesystem checks fail and `which` cannot be launched. -/
def missingEnv : Breeze.Env where
  platformIsWin32 := false
  packageDir := "/pkg"
  pathExists := fun _ => false
  pathIsFile := fun _ => false
  runProc := fun _ _ => .fileNotFound "[Errno 2] No such file or directory: 'which'"
  cpeStr := exCpeStr

/-- A CLI operation interface exercising each handler: `chat` raises a
`BreezeError`, `code` is interrupted, `clear` succeeds, and `ai` answers
every prompt `p` with `"R:" ++ p`. -/
def errCliEnv : Cli.CliEnv where
  chat := fun _ => .err ⟨"boom"⟩
  code := fun _ => .interrupt
  clear := .ok ()
  ai := fun p => .ok ("R:" ++ p)

/-- C1: whenever binary resolution succeeds and the child process completes
with exit status zero, `_run_breeze_command` returns the captured standard
output with leading and trailing whitespace removed. -/
theorem run_breeze_command_strips_stdout_on_success (env : Breeze.Env)
    (args : List String) (input_text : Option String) (b : String)
    (r : Breeze.RunResult)
    (hb : Breeze._find_breeze_binary env = .ok b)
    (hr : env.runProc (b :: args) input_text = .completed r)
    (h0 : r.returncode = 0) :
    Breeze._run_breeze_command env args input_text = .ok (Breeze.pyStrip r.stdout) := by
  unfold Breeze._run_breeze_command
  rw [hb]
  dsimp only
  rw [hr]
  simp [h0]

/-- C1 witness: the mock executable writing `"OK"` plus a newline to stdout
and exiting 0 yields exactly `"OK"`. -/
theorem run_breeze_command_strips_stdout_on_success_witness :
    Breeze._run_breeze_command okEnv ["hello"] none = .ok "OK" :=
  run_breeze_command_strips_stdout_on_success okEnv ["hello"] none
    "/pkg/breeze" ⟨0, "OK\n", ""⟩ rfl rfl rfl

/-- C2 counterexample: with a child writing `"bad input"` to stderr and
exiting 1, the raised error's message is `"Breeze command failed: bad
input"`, which is not equal to the captured standard error text. -/
theorem run_breeze_command_error_message_ne_stderr :
    Breeze._run_breeze_command stderrEnv ["p"] none
      = .error ⟨"Breeze command failed: bad input"⟩ ∧
    ("Breeze command failed: bad input" : String) ≠ "bad input" :=
  ⟨rfl, by decide⟩

/-- C2 amended: on a nonzero exit status `_run_breeze_command` raises a
`BreezeError` whose message is `"Breeze command failed: "` followed by the
captured standard error text, or by the raw `CalledProcessError` description
when standard error is empty. -/
theorem run_breeze_command_failure_message (env : Breeze.Env)
    (args : List String) (input_text : Option String) (b : String)
    (r : Breeze.RunResult)
    (hb : Breeze._find_breeze_binary env = .ok b)
    (hr : env.runProc (b :: args) input_text = .completed r)
    (hnz : r.returncode ≠ 0) :
    Breeze._run_breeze_command env args input_text
      = .error ⟨"Breeze command failed: " ++
          (if r.stderr = "" then env.cpeStr (b :: args) r.returncode else r.stderr)⟩ := by
  unfold Breeze._run_breeze_command
  rw [hb]
  dsimp only
  rw [hr]
  simp [hnz]

/-- C2 amended witness: stderr `"bad input"`, exit 1 gives message
`"Breeze command failed: bad input"`. -/
theorem run_breeze_command_failure_message_witness :
    Breeze._run_breeze_command stderrEnv ["p"] none
      = .error ⟨"Breeze command failed: bad input"⟩ :=
  run_breeze_command_failure_message stderrEnv ["p"] none "/pkg/breeze"
    ⟨1, "", "bad input"⟩ rfl rfl (by decide)

/-- C3: the two-step resolution chain.  (1) When the fixed package-relative
path passes the exists/is-file checks, `_find_breeze_binary` returns that
path for every possible behaviour of the OS search-path lookup — it is not
consulted.  (2) Otherwise, when the lookup completes with exit 0, the first
line of its stripped output is returned.  (3) When the fixed path fails and
the lookup also fails, the raised error's message carries the
`"Breeze binary not found"` marker and ends with the remediation hint. -/
theorem find_breeze_binary_resolution_chain (env : Breeze.Env) :
    ((env.pathExists (Breeze.binaryPath env)
        && env.pathIsFile (Breeze.binaryPath env)) = true →
      ∀ f, Breeze._find_breeze_binary { env with runProc := f }
            = .ok (Breeze.binaryPath env))
    ∧ ((env.pathExists (Breeze.binaryPath env)
        && env.pathIsFile (Breeze.binaryPath env)) = false →
      ∀ r, env.runProc (Breeze.whichCmd env) none = .completed r →
        r.returncode = 0 →
        Breeze._find_breeze_binary env
          = .ok (Breeze.pyFirstLine (Breeze.pyStrip r.stdout)))
    ∧ ((env.pathExists (Breeze.binaryPath env)
        && env.pathIsFile (Breeze.binaryPath env)) = false →
      Breeze.whichFails env →
        Breeze._find_breeze_binary env = .error ⟨Breeze.notFoundMsg⟩
        ∧ ("Breeze binary not found").data <+: Breeze.notFoundMsg.data
        ∧ ("go build ./cmd/breeze").data <:+ Breeze.notFoundMsg.data) := by
  refine ⟨?_, ?_, ?_⟩
  · intro h f
    simp [Breeze._find_breeze_binary, Breeze.binaryPath, Breeze.binaryName] at h ⊢
    simp [h]
  · intro h r hr h0
    simp [Breeze._find_breeze_binary, h, hr, h0]
  · intro h hw
    refine ⟨?_, by decide, by decide⟩
    unfold Breeze.whichFails at hw
    unfold Breeze._find_breeze_binary
    rw [h]
    revert hw
    cases env.runProc (Breeze.whichCmd env) none with
    | completed r => intro hw; simp [hw]
    | fileNotFound m => intro _; simp

/-- C3 witness: with both lookup steps failing, resolution raises the
not-found error. -/
theorem find_breeze_binary_resolution_chain_witness :
    Breeze._find_breeze_binary missingEnv = .error ⟨Breeze.notFoundMsg⟩
    ∧ ("Breeze binary not found").data <+: Breeze.notFoundMsg.data
    ∧ ("go build ./cmd/breeze").data <:+ Breeze.notFoundMsg.data :=
  (find_breeze_binary_resolution_chain missingEnv).2.2 rfl trivial

/-- C4: `ai` passes exactly `[prompt]` to the process invoker; the optional
`model`, `temperature`, `concise` and `docs` parameters are accepted but not
forwarded, so any call equals `ai` applied to the prompt alone. -/
theorem ai_ignores_optional_params (env : Breeze.Env) (prompt : String)
    (model : Option String) (temperature : Option Float) (concise : Bool)
    (docs : Option (List String)) :
    Breeze.ai env prompt model temperature concise docs
        = Breeze._run_breeze_command env [prompt] none
    ∧ Breeze.ai env prompt model temperature concise docs = Breeze.ai env prompt :=
  ⟨rfl, rfl⟩

/-- C5: `stream` returns exactly what the single-prompt query `ai` returns
(the same success value, and the same raised `BreezeError` when `ai` fails),
and the supplied callback is invoked zero times. -/
theorem stream_degenerates_to_ai (env : Breeze.Env) (prompt : String)
    (callback : Option (String → Unit)) :
    (Breeze.stream env prompt callback).1 = Breeze.ai env prompt
    ∧ (Breeze.stream env prompt callback).2 = 0 :=
  ⟨rfl, rfl⟩

/-- C6: `batch` processes its prompts sequentially in input order.  When
every element's query succeeds, the result is the list of per-prompt results
in input order; when some element's query raises, the whole call raises and
no result list is returned. -/
theorem batch_preserves_order_and_aborts (env : Breeze.Env) :
    (∀ prompts f, (∀ p ∈ prompts, Breeze.ai env p = .ok (f p)) →
      Breeze.batch env prompts = .ok (prompts.map f))
    ∧ (∀ prompts, (∃ p ∈ prompts, ∃ e, Breeze.ai env p = .error e) →
      ∃ e, Breeze.batch env prompts = .error e) := by
  constructor
  · intro prompts f h
    induction prompts with
    | nil => rfl
    | cons p ps ih =>
      have hp := h p (List.mem_cons_self p ps)
      have hps := ih fun q hq => h q (List.mem_cons_of_mem p hq)
      simp [Breeze.batch, hp, hps]
  · intro prompts h
    induction prompts with
    | nil => simp at h
    | cons p ps ih =>
      obtain ⟨q, hq, e, he⟩ := h
      rcases List.mem_cons.mp hq with rfl | hmem
      · exact ⟨e, by simp [Breeze.batch, he]⟩
      · cases hap : Breeze.ai env p with
        | error e1 => exact ⟨e1, by simp [Breeze.batch, hap]⟩
        | ok r =>
          obtain ⟨e2, he2⟩ := ih ⟨q, hmem, e, he⟩
          exact ⟨e2, by simp [Breeze.batch, hap, he2]⟩

/-- C6 witness: with the echoing mock executable, `batch ["a", "b"]` returns
`["a", "b"]` in input order. -/
theorem batch_preserves_order_and_aborts_witness :
    Breeze.batch echoEnv ["a", "b"] = .ok ["a", "b"] := by
  have h := (batch_preserves_order_and_aborts echoEnv).1 ["a", "b"] id
    (fun p hp => by fin_cases hp <;> rfl)
  simpa using h

/-- C8: `batch` applied to the empty list returns the empty list, in every
environment whatsoever — no binary resolution and no subprocess launch can
influence (or be required for) the result. -/
theorem batch_empty_is_empty (env : Breeze.Env) :
    Breeze.batch env [] = .ok [] :=
  rfl

/-- C9: when binary resolution raises, that `BreezeError` propagates
unchanged — with its original message, not wrapped in the
`"Breeze command failed"` or `"Failed to execute"` messages — out of
`_run_breeze_command` and out of every public operation (`ai`, `chat`,
`code`, `clear`, `stream`, and `batch` on any nonempty prompt list). -/
theorem not_found_error_propagates_unchanged (env : Breeze.Env)
    (e : Breeze.BreezeError)
    (hfind : Breeze._find_breeze_binary env = .error e) :
    (∀ args input_text,
      Breeze._run_breeze_command env args input_text = .error e)
    ∧ (∀ prompt, Breeze.ai env prompt = .error e)
    ∧ (∀ prompt, Breeze.chat env prompt = .error e)
    ∧ (∀ prompt, Breeze.code env prompt = .error e)
    ∧ Breeze.clear env = .error e
    ∧ (∀ prompt callback, (Breeze.stream env prompt callback).1 = .error e)
    ∧ (∀ prompts, prompts ≠ [] → Breeze.batch env prompts = .error e) := by
  have hrun : ∀ args input_text,
      Breeze._run_breeze_command env args input_text = .error e := by
    intro args input_text
    unfold Breeze._run_breeze_command
    rw [hfind]
  refine ⟨hrun, fun p => hrun _ _, fun p => hrun _ _, fun p => hrun _ _, ?_,
    fun p cb => hrun _ _, ?_⟩
  · show (Breeze._run_breeze_command env ["clear"] none).map _ = .error e
    rw [hrun]
    rfl
  · intro prompts hne
    cases prompts with
    | nil => exact absurd rfl hne
    | cons p ps => simp [Breeze.batch, Breeze.ai, hrun]

/-- C9 witness: with both resolution steps failing, `ai` and a nonempty
`batch` surface the original not-found message. -/
theorem not_found_error_propagates_unchanged_witness :
    Breeze.ai missingEnv "x" = .error ⟨Breeze.notFoundMsg⟩
    ∧ Breeze.batch missingEnv ["x"] = .error ⟨Breeze.notFoundMsg⟩ :=
  ⟨(not_found_error_propagates_unchanged missingEnv ⟨Breeze.notFoundMsg⟩ rfl).2.1 "x",
   (not_found_error_propagates_unchanged missingEnv ⟨Breeze.notFoundMsg⟩ rfl).2.2.2.2.2.2
     ["x"] (by decide)⟩

/-- C7: the CLI entry point's top-level discipline.  A `BreezeError`
escaping the dispatch is caught, printed to stderr, and the process exits 1;
a keyboard interrupt exits 130; and on every successful operation (chat,
code, clear, or a direct prompt) the response is printed and the process
exits 0. -/
theorem cli_main_exit_discipline (env : Cli.CliEnv) :
    (∀ cmd args e, Cli.tryBody env cmd args = .err e →
      Cli.main env cmd args = ⟨[], ["Error: " ++ e.msg], 1⟩)
    ∧ (∀ cmd args, Cli.tryBody env cmd args = .interrupt →
      Cli.main env cmd args = ⟨[], ["\nInterrupted"], 130⟩)
    ∧ (∀ args r, args.isEmpty = false →
      env.chat (String.intercalate " " args) = .ok r →
      Cli.main env (some "chat") args = ⟨[r], [], 0⟩)
    ∧ (∀ args r, args.isEmpty = false →
      env.code (String.intercalate " " args) = .ok r →
      Cli.main env (some "code") args = ⟨[r], [], 0⟩)
    ∧ (∀ args, env.clear = .ok () →
      Cli.main env (some "clear") args = ⟨["Conversation cleared."], [], 0⟩)
    ∧ (∀ c args r, c ≠ "chat" → c ≠ "code" → c ≠ "clear" →
      env.ai (Cli.directPrompt c args) = .ok r →
      Cli.main env (some c) args = ⟨[r], [], 0⟩) := by
  refine ⟨?_, ?_, ?_, ?_, ?_, ?_⟩
  · intro cmd args e h
    simp [Cli.main, h]
  · intro cmd args h
    simp [Cli.main, h]
  · intro args r hne hok
    simp [Cli.main, Cli.tryBody, hne, hok]
  · intro args r hne hok
    simp [Cli.main, Cli.tryBody, hne, hok]
  · intro args h
    simp [Cli.main, Cli.tryBody, h]
  · intro c args r hc1 hc2 hc3 hok
    simp [Cli.main, Cli.tryBody, hc1, hc2, hc3, hok]

/-- C7 witness: a raised `BreezeError` exits 1 with the message on stderr,
an interrupt exits 130, and successful clear and direct-prompt runs exit 0
with the response on stdout. -/
theorem cli_main_exit_discipline_witness :
    Cli.main errCliEnv (some "chat") ["hi"] = ⟨[], ["Error: boom"], 1⟩
    ∧ Cli.main errCliEnv (some "code") ["hi"] = ⟨[], ["\nInterrupted"], 130⟩
    ∧ Cli.main errCliEnv (some "clear") [] = ⟨["Conversation cleared."], [], 0⟩
    ∧ Cli.main errCliEnv (some "hello") ["world"] = ⟨["R:hello world"], [], 0⟩ :=
  ⟨(cli_main_exit_discipline errCliEnv).1 (some "chat") ["hi"] ⟨"boom"⟩ rfl,
   (cli_main_exit_discipline errCliEnv).2.1 (some "code") ["hi"] rfl,
   (cli_main_exit_discipline errCliEnv).2.2.2.2.1 [] rfl,
   (cli_main_exit_discipline errCliEnv).2.2.2.2.2 "hello" ["world"] "R:hello world"
     (by decide) (by decide) (by decide) rfl⟩

/-- C10: invoking the CLI as `chat` or `code` with no further tokens prints
the "requires a prompt" message to stdout (stderr stays empty) and exits 1,
in every operation environment — no operation, and hence no binary
resolution or subprocess launch, can influence the outcome. -/
theorem cli_missing_prompt_short_circuits (env : Cli.CliEnv) :
    Cli.main env (some "chat") [] = ⟨["Error: chat requires a prompt"], [], 1⟩
    ∧ Cli.main env (some "code") [] = ⟨["Error: code requires a prompt"], [], 1⟩ :=
  ⟨rfl, rfl⟩
